import Mathlib

/-!
Verification of the TexrayGAN (StackGAN) training core against its
natural-language specification.  Tensors are embedded as lists of reals;
the TensorFlow loss primitives are embedded by their mathematical
definitions.
-/

namespace Texray

/-! ## Loss primitives -/

/-- `tf.nn.sigmoid_cross_entropy_with_logits(labels=z, logits=x)`:
mathematically `-(z * log (sigmoid x) + (1 - z) * log (1 - sigmoid x))`,
which simplifies to `(1 - z) * x + log (1 + exp (-x))`. -/
noncomputable def sigmoid_cross_entropy_with_logits (label logit : ℝ) : ℝ :=
  (1 - label) * logit + Real.log (1 + Real.exp (-logit))

/-- `tf.reduce_mean` over a flattened tensor. -/
noncomputable def reduce_mean (xs : List ℝ) : ℝ :=
  xs.sum / xs.length

/-- `tf.keras.losses.BinaryCrossentropy(from_logits=True)` applied to a
labels tensor and a logits tensor of the same shape: the mean of the
elementwise sigmoid cross-entropy. -/
noncomputable def binary_crossentropy_from_logits (labels logits : List ℝ) : ℝ :=
  reduce_mean ((labels.zip logits).map fun p => sigmoid_cross_entropy_with_logits p.1 p.2)

/-- Mean sigmoid cross-entropy of a logits tensor against a constant label
(the effect of `tf.ones_like` / `tf.zeros_like` / `tf.fill(shape, c)` labels). -/
noncomputable def mean_bce_const (label : ℝ) (logits : List ℝ) : ℝ :=
  reduce_mean (logits.map fun x => sigmoid_cross_entropy_with_logits label x)

/-- `DiscriminatorStage1.loss` from `src/models/discriminators.py` lines 115-125:
full-weight real loss (labels `tf.ones_like`), plus `(wrong_loss + fake_loss) / 2`
with zero labels. -/
noncomputable def DiscriminatorStage1_loss
    (predictions_on_real predictions_on_wrong predictions_on_fake : List ℝ) : ℝ :=
  let real_loss := reduce_mean (predictions_on_real.map fun p =>
    sigmoid_cross_entropy_with_logits 1 p)
  let wrong_loss := reduce_mean (predictions_on_wrong.map fun p =>
    sigmoid_cross_entropy_with_logits 0 p)
  let fake_loss := reduce_mean (predictions_on_fake.map fun p =>
    sigmoid_cross_entropy_with_logits 0 p)
  real_loss + (wrong_loss + fake_loss) / 2

/-- The discriminator loss computed inside `Stage2Trainer.train_epoch`
(`src/shenanigan/models/stackgan/stage2/trainer.py` lines 117-129):
`disc_real_loss` uses labels `tf.fill(real_predictions.shape, 0.9)`,
`disc_wrong_loss` and `disc_fake_loss` use `tf.zeros_like` labels, and the
total is `disc_real_loss + 0.5 * disc_wrong_loss + 0.5 * disc_fake_loss`. -/
noncomputable def Stage2Trainer_train_discriminator_loss
    (real_predictions wrong_predictions fake_predictions : List ℝ) : ℝ :=
  let disc_real_loss := binary_crossentropy_from_logits
    (List.replicate real_predictions.length 0.9) real_predictions
  let disc_wrong_loss := binary_crossentropy_from_logits
    (List.replicate wrong_predictions.length 0) wrong_predictions
  let disc_fake_loss := binary_crossentropy_from_logits
    (List.replicate fake_predictions.length 0) fake_predictions
  disc_real_loss + 0.5 * disc_wrong_loss + 0.5 * disc_fake_loss

/-- The discriminator loss computed inside `Stage2Trainer.val_epoch`
(`trainer.py` lines 248-260): identical to the training-step loss except that
`disc_real_loss` uses labels `tf.ones_like(real_predictions)`. -/
noncomputable def Stage2Trainer_val_discriminator_loss
    (real_predictions wrong_predictions fake_predictions : List ℝ) : ℝ :=
  let disc_real_loss := binary_crossentropy_from_logits
    (List.replicate real_predictions.length 1) real_predictions
  let disc_wrong_loss := binary_crossentropy_from_logits
    (List.replicate wrong_predictions.length 0) wrong_predictions
  let disc_fake_loss := binary_crossentropy_from_logits
    (List.replicate fake_predictions.length 0) fake_predictions
  disc_real_loss + 0.5 * disc_wrong_loss + 0.5 * disc_fake_loss

/-- The discriminator loss formula exactly as the specification words it:
each component a binary cross-entropy on logits, real targeting 1, wrong and
fake targeting 0, combined as `real_loss + 0.5 * wrong_loss + 0.5 * fake_loss`.
(Spec-side definition, to be compared with the source-side ones above.) -/
noncomputable def spec_discriminator_loss
    (real_predictions wrong_predictions fake_predictions : List ℝ) : ℝ :=
  mean_bce_const 1 real_predictions
    + 0.5 * mean_bce_const 0 wrong_predictions
    + 0.5 * mean_bce_const 0 fake_predictions

/-! ## KL loss and reparameterization sampling (`src/shenanigan/utils/utils.py`) -/

/-- One element of the tensor built inside `kl_loss`:
`-log_sigma + 0.5 * (-1 + exp(2 * log_sigma) + square(mean))`. -/
noncomputable def kl_loss_elem (mean log_sigma : ℝ) : ℝ :=
  -log_sigma + 0.5 * (-1 + Real.exp (2 * log_sigma) + mean * mean)

/-- `kl_loss(mean, log_sigma)` from `utils.py` lines 71-74: the mean over all
elements of the paired `(mean, log_sigma)` tensors of `kl_loss_elem`. -/
noncomputable def kl_loss (pairs : List (ℝ × ℝ)) : ℝ :=
  reduce_mean (pairs.map fun p => kl_loss_elem p.1 p.2)

/-- `sample_normal(mean, log_var)` from `utils.py` lines 55-68 with the noise
draw `epsilon` made explicit: `mean + exp(log_var) * epsilon`, elementwise. -/
noncomputable def sample_normal (mean log_var epsilon : List ℝ) : List ℝ :=
  List.zipWith (fun mv e => mv.1 + Real.exp mv.2 * e) (mean.zip log_var) epsilon

/-! ## Stage-1 generator construction (`src/shenanigan/models/stackgan/stage1/model.py`) -/

/-- Configuration state established by `GeneratorStage1.__init__`. -/
structure GeneratorStage1Config where
  num_output_channels : ℤ
  conditional_emb_size : ℤ
  kl_coeff : ℤ
deriving DecidableEq, Repr

/-- `GeneratorStage1.__init__` (`model.py` lines 57-82): takes
`num_output_channels = img_size[0]`, sets `kl_coeff = 2`, and asserts
`num_output_channels == 3 or num_output_channels == 1`, raising otherwise. -/
def GeneratorStage1_init (img_size : List ℤ) (conditional_emb_size : ℤ) :
    Except String GeneratorStage1Config :=
  let num_output_channels := img_size.headI
  if num_output_channels = 3 ∨ num_output_channels = 1 then
    Except.ok { num_output_channels := num_output_channels
                conditional_emb_size := conditional_emb_size
                kl_coeff := 2 }
  else
    Except.error ("The number of output channels must be 2 or 1. Found "
      ++ toString num_output_channels)

/-! ## Checkpoint epoch resolution (`utils.py` lines 145-155) -/

/-- Whether the pattern is a prefix of the character list. -/
def list_starts_with : List Char → List Char → Bool
  | [], _ => true
  | _ :: _, [] => false
  | p :: ps, x :: xs => (p == x) && list_starts_with ps xs

/-- Whether the pattern occurs as a contiguous substring (Python `in`). -/
def list_contains_sub (pat : List Char) : List Char → Bool
  | [] => list_starts_with pat []
  | x :: xs => list_starts_with pat (x :: xs) || list_contains_sub pat xs

/-- Value of a list of decimal digit characters. -/
def digits_to_nat (ds : List Char) : ℕ :=
  ds.foldl (fun acc c => 10 * acc + (c.toNat - 48)) 0

/-- `int(re.search(r"\d+", s)[0])`: the first maximal run of digits in the
string, or `none` when the string has no digit (in which case the Python
code raises a `TypeError`). -/
def first_digit_run : List Char → Option ℕ
  | [] => none
  | c :: rest =>
    if c.isDigit then some (digits_to_nat (c :: rest.takeWhile Char.isDigit))
    else first_digit_run rest

/-- First digit run of each candidate name; `none` as soon as one name has
no digits (the `TypeError` path). -/
def collect_epoch_nums : List String → Option (List ℕ)
  | [] => some []
  | d :: ds =>
    match first_digit_run d.toList, collect_epoch_nums ds with
    | some n, some ns => some (n :: ns)
    | _, _ => none

/-- `extract_epoch_num(results_dir)` from `utils.py` lines 145-155, with the
directory listing passed in explicitly.  `glob(f"{results_dir}/*/")` yields
the paths `results_dir ++ "/" ++ name ++ "/"`; a path is a candidate when the
string `"model"` occurs in it; with no candidate an exception is raised;
otherwise the first digit run of each candidate's last path component
(`candidate_dir.split("/")[-2]`, i.e. `name`) is taken and the maximum
returned. -/
def candidate_model_dirs (results_dir : String) (subdir_names : List String) :
    List String :=
  subdir_names.filter fun name =>
    list_contains_sub ("model".toList) (results_dir ++ "/" ++ name ++ "/").toList

/-- Body of `extract_epoch_num`, with the directory listing passed in. -/
def extract_epoch_num (results_dir : String) (subdir_names : List String) :
    Except String ℕ :=
  let candidate_dirs := candidate_model_dirs results_dir subdir_names
  if candidate_dirs.isEmpty then
    Except.error ("No candidate models found in " ++ results_dir)
  else
    match collect_epoch_nums candidate_dirs with
    | none => Except.error "TypeError"
    | some ns => Except.ok (ns.foldl Nat.max 0)

/-! ## Keras auxiliary-loss side channel (`GeneratorStage1.call`, `model.py` lines 134-163) -/

/-- The part of a Keras model's state relevant to the `add_loss` side
channel: the list `model.losses` of auxiliary losses. -/
structure GeneratorLossState where
  losses : List ℝ

/-- Keras clears a model's auxiliary losses at the start of every `__call__`. -/
def clear_losses (_s : GeneratorLossState) : GeneratorLossState :=
  { losses := [] }

/-- `self.add_loss(v)`: appends to `model.losses`. -/
noncomputable def add_loss (s : GeneratorLossState) (v : ℝ) : GeneratorLossState :=
  { losses := s.losses ++ [v] }

/-- Effect of one `GeneratorStage1.call` forward pass on the auxiliary-loss
state: Keras clears `model.losses` on entry to `__call__`, and the body runs
`self.add_loss(self.kl_coeff * kl_loss(mean, log_sigma))` once, with
`self.kl_coeff = 2` (`model.py` line 77, line 161).  `pairs` is the
`(mean, log_sigma)` output of the conditional-augmentation block for this
forward pass. -/
noncomputable def GeneratorStage1_call_losses (s : GeneratorLossState)
    (pairs : List (ℝ × ℝ)) : GeneratorLossState :=
  add_loss (clear_losses s) (2 * kl_loss pairs)

/-- `kl_loss = sum(self.model.generator.losses)` as retrieved by the trainer
(`trainer.py` line 114). -/
noncomputable def trainer_kl_term (s : GeneratorLossState) : ℝ :=
  s.losses.sum

/-! ## Stage-2 training epoch: parameter-update frame (`trainer.py` lines 49-168) -/

/-- The three parameter sets in play during stage-2 training: the frozen
stage-1 generator (`self.stage_1_generator`), the stage-2 generator
(`self.model.generator`) and the stage-2 discriminator
(`self.model.discriminator`). -/
structure Stage2ModelState (P G D : Type) where
  stage_1_generator : P
  generator : G
  discriminator : D

/-- One stage-2 training step (`trainer.py` lines 75-147).  The forward
passes and gradient tapes are abstracted into the two update functions,
which may read the whole state (the discriminator loss depends on the
stage-1 generator's output) and a batch; `apply_gradients` is called only
on `self.model.generator.trainable_variables` and
`self.model.discriminator.trainable_variables`, and the stage-1 generator
is only ever invoked with `training=False`, so only those two fields are
written. -/
def stage2_train_step {P G D B : Type}
    (apply_generator_gradients : Stage2ModelState P G D → B → G)
    (apply_discriminator_gradients : Stage2ModelState P G D → B → D)
    (s : Stage2ModelState P G D) (batch : B) : Stage2ModelState P G D :=
  { stage_1_generator := s.stage_1_generator
    generator := apply_generator_gradients s batch
    discriminator := apply_discriminator_gradients s batch }

/-- `Stage2Trainer.train_epoch` as a fold of the training step over the
epoch's mini-batches. -/
def stage2_train_epoch_params {P G D B : Type}
    (apply_generator_gradients : Stage2ModelState P G D → B → G)
    (apply_discriminator_gradients : Stage2ModelState P G D → B → D)
    (s : Stage2ModelState P G D) (batches : List B) : Stage2ModelState P G D :=
  batches.foldl (stage2_train_step apply_generator_gradients apply_discriminator_gradients) s

/-! ## Per-epoch loss accumulation and averaging (`trainer.py` lines 49-181, 183-295) -/

/-- The six per-batch scalar losses accumulated by `Stage2Trainer`. -/
structure BatchLosses (α : Type) where
  generator_loss : α
  discriminator_loss : α
  kl : α
  disc_real_loss : α
  disc_wrong_loss : α
  disc_fake_loss : α
deriving DecidableEq, Repr

/-- The per-epoch record returned by `train_epoch` / `val_epoch`. -/
structure EpochLosses (α : Type) where
  generator_loss : α
  discriminator_loss : α
  kl : α
  discriminator_real_loss : α
  discriminator_wrong_loss : α
  discriminator_fake_loss : α
deriving DecidableEq, Repr

/-- One iteration of the accumulation loop: add this batch's losses to the
accumulators and bind `batch_idx` to the current enumeration index. -/
def accumulate_step {α : Type} [DivisionRing α]
    (s : BatchLosses α × Option ℕ) (ib : ℕ × BatchLosses α) :
    BatchLosses α × Option ℕ :=
  (⟨s.1.generator_loss + ib.2.generator_loss,
    s.1.discriminator_loss + ib.2.discriminator_loss,
    s.1.kl + ib.2.kl,
    s.1.disc_real_loss + ib.2.disc_real_loss,
    s.1.disc_wrong_loss + ib.2.disc_wrong_loss,
    s.1.disc_fake_loss + ib.2.disc_fake_loss⟩, some ib.1)

/-- `Stage2Trainer.train_epoch` loss bookkeeping (`trainer.py` lines 51-56,
159-181): accumulators start at `0`, the loop runs over
`enumerate(train_loader.parsed_subset)` binding `batch_idx`, and the return
value divides each accumulator by `batch_idx + 1`.  When the loader is
empty, `batch_idx` was never bound and the return statement raises a
`NameError` (`none`). -/
def Stage2Trainer_train_epoch {α : Type} [DivisionRing α]
    (batches : List (BatchLosses α)) : Option (EpochLosses α) :=
  let r := batches.enum.foldl accumulate_step (⟨0, 0, 0, 0, 0, 0⟩, none)
  match r.2 with
  | none => none
  | some batch_idx => some
    { generator_loss := r.1.generator_loss / ((batch_idx + 1 : ℕ) : α)
      discriminator_loss := r.1.discriminator_loss / ((batch_idx + 1 : ℕ) : α)
      kl := r.1.kl / ((batch_idx + 1 : ℕ) : α)
      discriminator_real_loss := r.1.disc_real_loss / ((batch_idx + 1 : ℕ) : α)
      discriminator_wrong_loss := r.1.disc_wrong_loss / ((batch_idx + 1 : ℕ) : α)
      discriminator_fake_loss := r.1.disc_fake_loss / ((batch_idx + 1 : ℕ) : α) }

/-- `Stage2Trainer.val_epoch` loss bookkeeping (`trainer.py` lines 184-189,
273-295): identical accumulation and division structure to `train_epoch`
(no gradient steps are taken, which does not affect the bookkeeping). -/
def Stage2Trainer_val_epoch {α : Type} [DivisionRing α]
    (batches : List (BatchLosses α)) : Option (EpochLosses α) :=
  let r := batches.enum.foldl accumulate_step (⟨0, 0, 0, 0, 0, 0⟩, none)
  match r.2 with
  | none => none
  | some batch_idx => some
    { generator_loss := r.1.generator_loss / ((batch_idx + 1 : ℕ) : α)
      discriminator_loss := r.1.discriminator_loss / ((batch_idx + 1 : ℕ) : α)
      kl := r.1.kl / ((batch_idx + 1 : ℕ) : α)
      discriminator_real_loss := r.1.disc_real_loss / ((batch_idx + 1 : ℕ) : α)
      discriminator_wrong_loss := r.1.disc_wrong_loss / ((batch_idx + 1 : ℕ) : α)
      discriminator_fake_loss := r.1.disc_fake_loss / ((batch_idx + 1 : ℕ) : α) }

/-! ## Learning-rate decay callback -/

/-- Modelled from the spec: the learning-rate-decay callback lives in
`utils/callbacks.py` (`LearningRateDecay`), which is not included under
`src/`; only its construction site in `src/main.py` (lines 150-153) is.
Spec section 4.6: "given a decay factor and a period-in-epochs, multiply
each network's optimizer learning rate by the decay factor every time the
epoch counter is a positive multiple of the period; otherwise no-op.
Idempotent across repeated calls with the same epoch number ... implementers
must track the last epoch it fired on."  Learning rates are embedded as
exact rationals. -/
structure LearningRateDecay where
  decay_factor : ℚ
  every_n : ℕ
  last_fired_epoch : Option ℕ
deriving DecidableEq, Repr

/-- Modelled from the spec: one invocation of the learning-rate-decay hook
at `epoch` over the networks' current learning rates.  Fires exactly when
the epoch is a positive multiple of the period and the hook has not already
fired at this epoch; firing multiplies every learning rate by the decay
factor and records the epoch. -/
def LearningRateDecay_call (cb : LearningRateDecay) (epoch : ℕ) (lrs : List ℚ) :
    LearningRateDecay × List ℚ :=
  if 0 < epoch ∧ epoch % cb.every_n = 0 ∧ cb.last_fired_epoch ≠ some epoch then
    ({ cb with last_fired_epoch := some epoch },
     lrs.map fun lr => lr * cb.decay_factor)
  else
    (cb, lrs)

/-- Run the decay hook once per epoch over a list of epoch numbers. -/
def run_decay (cb : LearningRateDecay) (lrs : List ℚ) :
    List ℕ → LearningRateDecay × List ℚ
  | [] => (cb, lrs)
  | e :: es =>
    let r := LearningRateDecay_call cb e lrs
    run_decay r.1 r.2 es

/-! ## Helper lemmas -/

theorem kl_loss_elem_zero : kl_loss_elem 0 0 = 0 := by
  simp [kl_loss_elem]

theorem kl_loss_elem_nonneg (m s : ℝ) : 0 ≤ kl_loss_elem m s := by
  have h := Real.add_one_le_exp (2 * s)
  unfold kl_loss_elem
  nlinarith [mul_self_nonneg m]

/-! ## Claim theorems -/

/-- C2: For every stage-2 training epoch, the frozen stage-1 generator's
parameters are unchanged afterwards: optimizer steps are applied only to the
stage-2 generator's and discriminator's trainable variables, never to the
stage-1 generator's, and its forward pass runs with training disabled. -/
theorem stage1_generator_frozen_in_stage2_epoch :
    ∀ (P G D B : Type)
      (apply_generator_gradients : Stage2ModelState P G D → B → G)
      (apply_discriminator_gradients : Stage2ModelState P G D → B → D)
      (s : Stage2ModelState P G D) (batches : List B),
    (stage2_train_epoch_params apply_generator_gradients apply_discriminator_gradients
        s batches).stage_1_generator = s.stage_1_generator := by
  intro P G D B ag ad s batches
  induction batches generalizing s with
  | nil => rfl
  | cons b bs ih =>
    simpa [stage2_train_epoch_params, stage2_train_step] using
      ih { stage_1_generator := s.stage_1_generator
           generator := ag s b
           discriminator := ad s b }

/-- C3: `kl_loss` evaluates to 0 when every `(mean, log_sigma)` element is
`(0, 0)`, and is non-negative for all inputs (it is the mean over elements of
`-log_sigma + 0.5 * (-1 + exp(2 * log_sigma) + mean^2)`). -/
theorem kl_loss_zero_at_origin_and_nonneg :
    (∀ n : ℕ, kl_loss (List.replicate n (0, 0)) = 0)
    ∧ ∀ pairs : List (ℝ × ℝ), 0 ≤ kl_loss pairs := by
  constructor
  · intro n
    simp [kl_loss, reduce_mean, List.map_replicate, kl_loss_elem_zero,
      List.sum_replicate]
  · intro pairs
    apply div_nonneg
    · apply List.sum_nonneg
      intro x hx
      obtain ⟨p, _, rfl⟩ := List.mem_map.mp hx
      exact kl_loss_elem_nonneg p.1 p.2
    · exact Nat.cast_nonneg _

/-- C4: `GeneratorStage1.__init__` succeeds exactly when the configured
number of output channels (the first element of `img_size`) is 1 or 3, and
fails with a configuration error for every other value. -/
theorem GeneratorStage1_init_channel_check :
    ∀ (c : ℤ) (rest : List ℤ) (emb : ℤ),
      ((∃ cfg, GeneratorStage1_init (c :: rest) emb = Except.ok cfg) ↔ c = 1 ∨ c = 3)
      ∧ (c ≠ 1 ∧ c ≠ 3 →
          ∃ msg, GeneratorStage1_init (c :: rest) emb = Except.error msg) := by
  intro c rest emb
  by_cases h : c = 3 ∨ c = 1
  · constructor
    · simp [GeneratorStage1_init, h]
      tauto
    · rintro ⟨h1, h3⟩
      rcases h with h | h
      · exact absurd h h3
      · exact absurd h h1
  · constructor
    · simp [GeneratorStage1_init, h]
      tauto
    · intro _
      refine ⟨"The number of output channels must be 2 or 1. Found " ++ toString c, ?_⟩
      simp [GeneratorStage1_init, h]

/-- Witness for C4: channel count 3 is accepted, channel count 2 is
rejected with a configuration error. -/
theorem GeneratorStage1_init_channel_check_witness :
    (∃ cfg, GeneratorStage1_init [3, 64, 64] 128 = Except.ok cfg)
    ∧ ∃ msg, GeneratorStage1_init [2, 64, 64] 128 = Except.error msg :=
  ⟨(GeneratorStage1_init_channel_check 3 [64, 64] 128).1.mpr (Or.inr rfl),
   (GeneratorStage1_init_channel_check 2 [64, 64] 128).2 (by decide)⟩

/-- C5: `sample_normal(mean, log_var)` computes `mean + exp(log_var) * epsilon`
elementwise; it is a function of the injected noise draw (deterministic once
the draw is fixed), and it equals `mean` exactly when the injected noise is
zero. -/
theorem sample_normal_deterministic_and_mean_at_zero_noise :
    (∀ mean log_var eps1 eps2 : List ℝ, eps1 = eps2 →
      sample_normal mean log_var eps1 = sample_normal mean log_var eps2)
    ∧ ∀ mean log_var : List ℝ, mean.length = log_var.length →
      sample_normal mean log_var (List.replicate mean.length 0) = mean := by
  constructor
  · intro mean log_var eps1 eps2 h
    rw [h]
  · intro mean
    induction mean with
    | nil => intro log_var _; rfl
    | cons m ms ih =>
      intro log_var hlen
      match log_var, hlen with
      | l :: ls, hlen =>
        simp only [sample_normal, List.zip_cons_cons, List.length_cons,
          List.replicate, List.zipWith_cons_cons, mul_zero, add_zero,
          List.cons.injEq, true_and]
        exact ih ls (by simpa using hlen)

/-- Witness for C5: with zero noise, `sample_normal [1, 2] [5, 7]` returns
the mean `[1, 2]`. -/
theorem sample_normal_witness :
    ([1, 2] : List ℝ).length = ([5, 7] : List ℝ).length
    ∧ sample_normal [1, 2] [5, 7] (List.replicate ([1, 2] : List ℝ).length 0)
        = [1, 2] :=
  ⟨rfl, sample_normal_deterministic_and_mean_at_zero_noise.2 [1, 2] [5, 7] rfl⟩

/-- C8: after any forward pass of the stage-1 generator, the KL term the
trainer retrieves (`sum(model.losses)`) equals `2 * kl_loss(mean, log_sigma)`
of that forward pass only, whatever auxiliary losses had accumulated before:
Keras resets `model.losses` on each call, so nothing carries over. -/
theorem trainer_kl_term_is_fresh_kl :
    ∀ (s : GeneratorLossState) (pairs : List (ℝ × ℝ)),
    trainer_kl_term (GeneratorStage1_call_losses s pairs) = 2 * kl_loss pairs := by
  intro s pairs
  simp [trainer_kl_term, GeneratorStage1_call_losses, add_loss, clear_losses]

theorem zip_replicate_map_sce (c : ℝ) (logits : List ℝ) :
    ((List.replicate logits.length c).zip logits).map
        (fun p => sigmoid_cross_entropy_with_logits p.1 p.2)
      = logits.map fun x => sigmoid_cross_entropy_with_logits c x := by
  induction logits with
  | nil => rfl
  | cons x xs ih =>
    simp only [List.length_cons, List.replicate, List.zip_cons_cons,
      List.map_cons, ih]

theorem binary_crossentropy_replicate (c : ℝ) (logits : List ℝ) :
    binary_crossentropy_from_logits (List.replicate logits.length c) logits
      = mean_bce_const c logits := by
  unfold binary_crossentropy_from_logits mean_bce_const
  rw [zip_replicate_map_sce]

/-- C1 counterexample: in the stage-2 training step the real predictions are
scored against the label-smoothed target 0.9 (`tf.fill(shape, 0.9)`), not 1,
so at real logit 1 the computed discriminator loss differs from the claim's
formula (it is larger by `0.1 * 1`). -/
theorem stage2_train_real_label_counterexample :
    Stage2Trainer_train_discriminator_loss [1] [0] [0]
      ≠ spec_discriminator_loss [1] [0] [0] := by
  have key : Stage2Trainer_train_discriminator_loss [1] [0] [0]
      = spec_discriminator_loss [1] [0] [0] + 1 / 10 := by
    simp only [Stage2Trainer_train_discriminator_loss, spec_discriminator_loss,
      binary_crossentropy_from_logits, mean_bce_const, reduce_mean,
      sigmoid_cross_entropy_with_logits, List.length_cons, List.length_nil,
      List.replicate, List.zip_cons_cons, List.zip_nil_right, List.map_cons,
      List.map_nil, List.sum_cons, List.sum_nil]
    norm_num
    ring
  intro h
  rw [key] at h
  linarith

/-- C1 (amended): every discriminator loss in the code is
`real_loss + 0.5 * wrong_loss + 0.5 * fake_loss` with each component a mean
sigmoid cross-entropy on logits and wrong/fake targeting 0; the real
component targets 1 in `DiscriminatorStage1.loss` and in the stage-2
validation epoch, but targets the label-smoothed 0.9 in the stage-2
training step. -/
theorem discriminator_loss_weighted_sum :
    ∀ real_predictions wrong_predictions fake_predictions : List ℝ,
      DiscriminatorStage1_loss real_predictions wrong_predictions fake_predictions
          = spec_discriminator_loss real_predictions wrong_predictions fake_predictions
      ∧ Stage2Trainer_train_discriminator_loss real_predictions wrong_predictions
            fake_predictions
          = mean_bce_const 0.9 real_predictions
            + 0.5 * mean_bce_const 0 wrong_predictions
            + 0.5 * mean_bce_const 0 fake_predictions
      ∧ Stage2Trainer_val_discriminator_loss real_predictions wrong_predictions
            fake_predictions
          = mean_bce_const 1 real_predictions
            + 0.5 * mean_bce_const 0 wrong_predictions
            + 0.5 * mean_bce_const 0 fake_predictions := by
  intro r w f
  refine ⟨?_, ?_, ?_⟩
  · simp only [DiscriminatorStage1_loss, spec_discriminator_loss, mean_bce_const]
    ring
  · simp only [Stage2Trainer_train_discriminator_loss, binary_crossentropy_replicate]
  · simp only [Stage2Trainer_val_discriminator_loss, binary_crossentropy_replicate]

theorem run_decay_nil (cb : LearningRateDecay) (lrs : List ℚ) :
    run_decay cb lrs [] = (cb, lrs) := rfl

theorem run_decay_cons (cb : LearningRateDecay) (lrs : List ℚ) (e : ℕ) (es : List ℕ) :
    run_decay cb lrs (e :: es)
      = run_decay (LearningRateDecay_call cb e lrs).1
          (LearningRateDecay_call cb e lrs).2 es := rfl

theorem LearningRateDecay_call_skip {cb : LearningRateDecay} {e : ℕ} {lrs : List ℚ}
    (h : ¬(0 < e ∧ e % cb.every_n = 0 ∧ cb.last_fired_epoch ≠ some e)) :
    LearningRateDecay_call cb e lrs = (cb, lrs) := if_neg h

theorem LearningRateDecay_call_fire {cb : LearningRateDecay} {e : ℕ} {lrs : List ℚ}
    (h : 0 < e ∧ e % cb.every_n = 0 ∧ cb.last_fired_epoch ≠ some e) :
    LearningRateDecay_call cb e lrs
      = ({ cb with last_fired_epoch := some e },
         lrs.map fun lr => lr * cb.decay_factor) := if_pos h

/-- C6: the learning-rate-decay callback multiplies each optimizer learning
rate by the decay factor exactly when the epoch is a positive multiple of the
period (and the hook has not already fired at that epoch), is a no-op
otherwise, and a second call with the same epoch never applies the decay a
second time; with period 5, factor 1/2 and initial rate 1/1000 the rate is
unchanged over epochs 1-4, is 1/2000 after epochs 1-5, is still 1/2000
through epochs 6-9, is 1/4000 after epoch 10, and two calls at epoch 5 decay
only once. -/
theorem LearningRateDecay_call_spec :
    (∀ (cb : LearningRateDecay) (epoch : ℕ) (lrs : List ℚ),
      (0 < epoch ∧ epoch % cb.every_n = 0 ∧ cb.last_fired_epoch ≠ some epoch →
        LearningRateDecay_call cb epoch lrs
          = ({ cb with last_fired_epoch := some epoch },
             lrs.map fun lr => lr * cb.decay_factor))
      ∧ (¬(0 < epoch ∧ epoch % cb.every_n = 0 ∧ cb.last_fired_epoch ≠ some epoch) →
          LearningRateDecay_call cb epoch lrs = (cb, lrs))
      ∧ LearningRateDecay_call (LearningRateDecay_call cb epoch lrs).1 epoch
            (LearningRateDecay_call cb epoch lrs).2
          = LearningRateDecay_call cb epoch lrs)
    ∧ (run_decay ⟨1 / 2, 5, none⟩ [1 / 1000] [1, 2, 3, 4]).2 = [1 / 1000]
    ∧ (run_decay ⟨1 / 2, 5, none⟩ [1 / 1000] [1, 2, 3, 4, 5]).2 = [1 / 2000]
    ∧ (run_decay ⟨1 / 2, 5, none⟩ [1 / 1000] [1, 2, 3, 4, 5, 6, 7, 8, 9]).2
        = [1 / 2000]
    ∧ (run_decay ⟨1 / 2, 5, none⟩ [1 / 1000] [1, 2, 3, 4, 5, 6, 7, 8, 9, 10]).2
        = [1 / 4000]
    ∧ (run_decay ⟨1 / 2, 5, none⟩ [1 / 1000] [5, 5]).2 = [1 / 2000] := by
  refine ⟨?_, ?_, ?_, ?_, ?_, ?_⟩
  · intro cb epoch lrs
    refine ⟨fun h => LearningRateDecay_call_fire h, fun h => LearningRateDecay_call_skip h, ?_⟩
    by_cases h : 0 < epoch ∧ epoch % cb.every_n = 0 ∧ cb.last_fired_epoch ≠ some epoch
    · rw [LearningRateDecay_call_fire h]
      exact LearningRateDecay_call_skip (by simp)
    · rw [LearningRateDecay_call_skip h, LearningRateDecay_call_skip h]
  · rw [run_decay_cons, LearningRateDecay_call_skip (by decide)]
    rw [run_decay_cons, LearningRateDecay_call_skip (by decide)]
    rw [run_decay_cons, LearningRateDecay_call_skip (by decide)]
    rw [run_decay_cons, LearningRateDecay_call_skip (by decide)]
    rw [run_decay_nil]
  · rw [run_decay_cons, LearningRateDecay_call_skip (by decide)]
    rw [run_decay_cons, LearningRateDecay_call_skip (by decide)]
    rw [run_decay_cons, LearningRateDecay_call_skip (by decide)]
    rw [run_decay_cons, LearningRateDecay_call_skip (by decide)]
    rw [run_decay_cons, LearningRateDecay_call_fire (by decide)]
    rw [run_decay_nil]
    norm_num
  · rw [run_decay_cons, LearningRateDecay_call_skip (by decide)]
    rw [run_decay_cons, LearningRateDecay_call_skip (by decide)]
    rw [run_decay_cons, LearningRateDecay_call_skip (by decide)]
    rw [run_decay_cons, LearningRateDecay_call_skip (by decide)]
    rw [run_decay_cons, LearningRateDecay_call_fire (by decide)]
    rw [run_decay_cons, LearningRateDecay_call_skip (by decide)]
    rw [run_decay_cons, LearningRateDecay_call_skip (by decide)]
    rw [run_decay_cons, LearningRateDecay_call_skip (by decide)]
    rw [run_decay_cons, LearningRateDecay_call_skip (by decide)]
    rw [run_decay_nil]
    norm_num
  · rw [run_decay_cons, LearningRateDecay_call_skip (by decide)]
    rw [run_decay_cons, LearningRateDecay_call_skip (by decide)]
    rw [run_decay_cons, LearningRateDecay_call_skip (by decide)]
    rw [run_decay_cons, LearningRateDecay_call_skip (by decide)]
    rw [run_decay_cons, LearningRateDecay_call_fire (by decide)]
    rw [run_decay_cons, LearningRateDecay_call_skip (by decide)]
    rw [run_decay_cons, LearningRateDecay_call_skip (by decide)]
    rw [run_decay_cons, LearningRateDecay_call_skip (by decide)]
    rw [run_decay_cons, LearningRateDecay_call_skip (by decide)]
    rw [run_decay_cons, LearningRateDecay_call_fire (by decide)]
    rw [run_decay_nil]
    norm_num
  · rw [run_decay_cons, LearningRateDecay_call_fire (by decide)]
    rw [run_decay_cons, LearningRateDecay_call_skip (by decide)]
    rw [run_decay_nil]
    norm_num

/-- Witness for C6: at epoch 5 (a positive multiple of the period 5) the
hook multiplies each rate by the factor and records the epoch; at epoch 3 it
is a no-op. -/
theorem LearningRateDecay_call_witness :
    LearningRateDecay_call ⟨1 / 2, 5, none⟩ 5 [1 / 1000]
        = (⟨1 / 2, 5, some 5⟩, [1 / 1000].map fun lr => lr * (1 / 2))
    ∧ LearningRateDecay_call ⟨1 / 2, 5, none⟩ 3 [1 / 1000]
        = (⟨1 / 2, 5, none⟩, [1 / 1000]) :=
  ⟨(LearningRateDecay_call_spec.1 ⟨1 / 2, 5, none⟩ 5 [1 / 1000]).1 (by decide),
   (LearningRateDecay_call_spec.1 ⟨1 / 2, 5, none⟩ 3 [1 / 1000]).2.1 (by decide)⟩

theorem le_foldl_max (xs : List ℕ) : ∀ a : ℕ, a ≤ xs.foldl Nat.max a := by
  induction xs with
  | nil => intro a; exact le_refl a
  | cons x xs ih =>
    intro a
    exact le_trans (Nat.le_max_left a x) (ih (Nat.max a x))

theorem mem_le_foldl_max (xs : List ℕ) : ∀ (a m : ℕ), m ∈ xs → m ≤ xs.foldl Nat.max a := by
  induction xs with
  | nil => intro a m hm; cases hm
  | cons x xs ih =>
    intro a m hm
    rcases List.mem_cons.mp hm with rfl | hm
    · exact le_trans (Nat.le_max_right a m) (le_foldl_max xs (Nat.max a m))
    · exact ih (Nat.max a x) m hm

theorem foldl_max_eq_or_mem (xs : List ℕ) :
    ∀ a : ℕ, xs.foldl Nat.max a = a ∨ xs.foldl Nat.max a ∈ xs := by
  induction xs with
  | nil => intro a; exact Or.inl rfl
  | cons x xs ih =>
    intro a
    rw [List.foldl_cons]
    rcases ih (Nat.max a x) with h | h
    · rcases Nat.le_total a x with hax | hxa
      · have hx : List.foldl Nat.max (Nat.max a x) xs = x :=
          h.trans (Nat.max_eq_right hax)
        rw [hx]
        exact Or.inr (List.mem_cons_self x xs)
      · exact Or.inl (h.trans (Nat.max_eq_left hxa))
    · exact Or.inr (List.mem_cons_of_mem x h)

theorem foldl_max_mem_of_ne_nil (xs : List ℕ) (h : xs ≠ []) :
    xs.foldl Nat.max 0 ∈ xs := by
  match xs, h with
  | x :: xs, _ =>
    rw [List.foldl_cons]
    have h0 : Nat.max 0 x = x := Nat.zero_max x
    rw [h0]
    rcases foldl_max_eq_or_mem xs x with h1 | h1
    · rw [h1]
      exact List.mem_cons_self x xs
    · exact List.mem_cons_of_mem x h1

theorem collect_epoch_nums_forall :
    ∀ (cands : List String) (ns : List ℕ),
      collect_epoch_nums cands = some ns →
      List.Forall₂ (fun name n => first_digit_run name.toList = some n) cands ns := by
  intro cands
  induction cands with
  | nil =>
    intro ns h
    simp only [collect_epoch_nums, Option.some.injEq] at h
    rw [← h]
    exact List.Forall₂.nil
  | cons d ds ih =>
    intro ns h
    cases hd : first_digit_run d.toList with
    | none => rw [collect_epoch_nums, hd] at h; cases h
    | some n =>
      cases hc : collect_epoch_nums ds with
      | none => rw [collect_epoch_nums, hd, hc] at h; cases h
      | some ms =>
        rw [collect_epoch_nums, hd, hc] at h
        cases h
        exact List.Forall₂.cons hd (ih ms hc)

theorem forall2_mem_left {R : String → ℕ → Prop} :
    ∀ {l₁ : List String} {l₂ : List ℕ}, List.Forall₂ R l₁ l₂ →
      ∀ a ∈ l₁, ∃ b ∈ l₂, R a b := by
  intro l₁ l₂ h
  induction h with
  | nil => intro a ha; cases ha
  | cons hR _ ih =>
    intro a ha
    rcases List.mem_cons.mp ha with rfl | ha
    · exact ⟨_, List.mem_cons_self _ _, hR⟩
    · rcases ih a ha with ⟨b, hb, hRb⟩
      exact ⟨b, List.mem_cons_of_mem _ hb, hRb⟩

theorem forall2_mem_right {R : String → ℕ → Prop} :
    ∀ {l₁ : List String} {l₂ : List ℕ}, List.Forall₂ R l₁ l₂ →
      ∀ b ∈ l₂, ∃ a ∈ l₁, R a b := by
  intro l₁ l₂ h
  induction h with
  | nil => intro b hb; cases hb
  | cons hR _ ih =>
    intro b hb
    rcases List.mem_cons.mp hb with rfl | hb
    · exact ⟨_, List.mem_cons_self _ _, hR⟩
    · rcases ih b hb with ⟨a, ha, hRa⟩
      exact ⟨a, List.mem_cons_of_mem _ ha, hRa⟩

/-- C7: "most recent" checkpoint resolution returns the maximum integer
embedded in the candidate subdirectory names (those whose path contains
"model"): on `model_1`, `model_3`, `model_10` it resolves to 10; with no
candidate subdirectory it fails with an explicit error; and in general a
successful resolution returns a value that is the digit run of some
candidate and an upper bound on the digit runs of all candidates. -/
theorem extract_epoch_num_spec :
    (extract_epoch_num "results/birds/stage-1" ["model_1", "model_3", "model_10"]
        = Except.ok 10)
    ∧ (∀ (results_dir : String) (subdir_names : List String),
        candidate_model_dirs results_dir subdir_names = [] →
        ∃ msg, extract_epoch_num results_dir subdir_names = Except.error msg)
    ∧ ∀ (results_dir : String) (subdir_names : List String) (n : ℕ),
        extract_epoch_num results_dir subdir_names = Except.ok n →
        (∃ name ∈ candidate_model_dirs results_dir subdir_names,
            first_digit_run name.toList = some n)
        ∧ ∀ name ∈ candidate_model_dirs results_dir subdir_names,
            ∀ m, first_digit_run name.toList = some m → m ≤ n := by
  refine ⟨by rfl, ?_, ?_⟩
  · intro results_dir subdir_names hempty
    refine ⟨"No candidate models found in " ++ results_dir, ?_⟩
    simp only [extract_epoch_num]
    rw [hempty]
    rfl
  · intro results_dir subdir_names n h
    simp only [extract_epoch_num] at h
    by_cases hempty : (candidate_model_dirs results_dir subdir_names).isEmpty
    · rw [if_pos hempty] at h
      cases h
    · rw [if_neg hempty] at h
      cases hc : collect_epoch_nums (candidate_model_dirs results_dir subdir_names) with
      | none => rw [hc] at h; cases h
      | some ns =>
        rw [hc] at h
        have hn : ns.foldl Nat.max 0 = n := by
          cases h; rfl
        have hf := collect_epoch_nums_forall _ _ hc
        have hcne : candidate_model_dirs results_dir subdir_names ≠ [] := by
          intro hnil
          rw [hnil] at hempty
          exact hempty List.isEmpty_nil
        have hnsne : ns ≠ [] := by
          intro hnil
          have hlen := hf.length_eq
          rw [hnil] at hlen
          exact hcne (List.length_eq_zero.mp hlen)
        constructor
        · have hmem : ns.foldl Nat.max 0 ∈ ns := foldl_max_mem_of_ne_nil ns hnsne
          rcases forall2_mem_right hf _ hmem with ⟨name, hname, hR⟩
          exact ⟨name, hname, hn ▸ hR⟩
        · intro name hname m hm
          rcases forall2_mem_left hf name hname with ⟨b, hb, hRb⟩
          rw [hm] at hRb
          cases hRb
          exact hn ▸ mem_le_foldl_max ns 0 m hb

/-- Witness for C7: a listing with no "model" subdirectory fails with an
explicit error; resolving `model_1`, `model_3`, `model_10` yields 10, which
is the digit run of one candidate. -/
theorem extract_epoch_num_witness :
    (∃ msg, extract_epoch_num "results/birds/stage-1" ["foo", "bar"]
        = Except.error msg)
    ∧ ∃ name ∈ candidate_model_dirs "results/birds/stage-1"
          ["model_1", "model_3", "model_10"],
        first_digit_run name.toList = some 10 :=
  ⟨extract_epoch_num_spec.2.1 "results/birds/stage-1" ["foo", "bar"] (by decide),
   (extract_epoch_num_spec.2.2 "results/birds/stage-1"
      ["model_1", "model_3", "model_10"] 10 extract_epoch_num_spec.1).1⟩

theorem Stage2Trainer_val_epoch_eq_train {α : Type} [DivisionRing α]
    (batches : List (BatchLosses α)) :
    Stage2Trainer_val_epoch batches = Stage2Trainer_train_epoch batches := rfl

theorem enumFrom_foldl_accumulate_snd {α : Type} [DivisionRing α] :
    ∀ (batches : List (BatchLosses α)), batches ≠ [] →
      ∀ (i : ℕ) (s : BatchLosses α × Option ℕ),
      ((List.enumFrom i batches).foldl accumulate_step s).2
        = some (i + batches.length - 1) := by
  intro batches
  induction batches with
  | nil => intro h; exact absurd rfl h
  | cons b bs ih =>
    intro _ i s
    rw [show List.enumFrom i (b :: bs) = (i, b) :: List.enumFrom (i + 1) bs from rfl,
      List.foldl_cons]
    cases bs with
    | nil =>
      simp [accumulate_step]
    | cons b2 bs2 =>
      rw [ih (by simp) (i + 1) (accumulate_step s (i, b))]
      simp only [List.length_cons, Option.some.injEq]
      omega

theorem foldl_accumulate_fst {α : Type} [DivisionRing α] :
    ∀ (l : List (ℕ × BatchLosses α)) (s : BatchLosses α × Option ℕ),
      (l.foldl accumulate_step s).1 =
        ⟨s.1.generator_loss + (l.map fun ib => ib.2.generator_loss).sum,
         s.1.discriminator_loss + (l.map fun ib => ib.2.discriminator_loss).sum,
         s.1.kl + (l.map fun ib => ib.2.kl).sum,
         s.1.disc_real_loss + (l.map fun ib => ib.2.disc_real_loss).sum,
         s.1.disc_wrong_loss + (l.map fun ib => ib.2.disc_wrong_loss).sum,
         s.1.disc_fake_loss + (l.map fun ib => ib.2.disc_fake_loss).sum⟩ := by
  intro l
  induction l with
  | nil => intro s; simp
  | cons ib l ih =>
    intro s
    rw [List.foldl_cons, ih]
    simp [accumulate_step, add_assoc]

theorem enum_map_field {β γ : Type} (l : List β) (f : β → γ) :
    (l.enum.map fun ib => f ib.2) = l.map f := by
  have h : (fun ib : ℕ × β => f ib.2) = f ∘ Prod.snd := rfl
  rw [h, ← List.map_map, List.enum_map_snd]

/-- C9: for every non-empty sequence of mini-batches, each per-epoch scalar
returned by `train_epoch` and `val_epoch` (generator loss, discriminator
loss, KL loss, and the discriminator real/wrong/fake sub-losses) equals the
sum of that component over all batches divided by the number of batches. -/
theorem Stage2Trainer_epoch_mean_losses {α : Type} [DivisionRing α]
    (batches : List (BatchLosses α)) (h : batches ≠ []) :
    Stage2Trainer_train_epoch batches = some
      { generator_loss :=
          (batches.map fun b => b.generator_loss).sum / (batches.length : α)
        discriminator_loss :=
          (batches.map fun b => b.discriminator_loss).sum / (batches.length : α)
        kl := (batches.map fun b => b.kl).sum / (batches.length : α)
        discriminator_real_loss :=
          (batches.map fun b => b.disc_real_loss).sum / (batches.length : α)
        discriminator_wrong_loss :=
          (batches.map fun b => b.disc_wrong_loss).sum / (batches.length : α)
        discriminator_fake_loss :=
          (batches.map fun b => b.disc_fake_loss).sum / (batches.length : α) }
    ∧ Stage2Trainer_val_epoch batches = some
      { generator_loss :=
          (batches.map fun b => b.generator_loss).sum / (batches.length : α)
        discriminator_loss :=
          (batches.map fun b => b.discriminator_loss).sum / (batches.length : α)
        kl := (batches.map fun b => b.kl).sum / (batches.length : α)
        discriminator_real_loss :=
          (batches.map fun b => b.disc_real_loss).sum / (batches.length : α)
        discriminator_wrong_loss :=
          (batches.map fun b => b.disc_wrong_loss).sum / (batches.length : α)
        discriminator_fake_loss :=
          (batches.map fun b => b.disc_fake_loss).sum / (batches.length : α) } := by
  have hsnd : (batches.enum.foldl accumulate_step (⟨0, 0, 0, 0, 0, 0⟩, none)).2
      = some (batches.length - 1) := by
    rw [show batches.enum = List.enumFrom 0 batches from rfl,
      enumFrom_foldl_accumulate_snd batches h 0]
    simp
  have hlen : batches.length - 1 + 1 = batches.length := by
    have := List.length_pos.mpr h
    omega
  have hcast : ((batches.length - 1 + 1 : ℕ) : α) = (batches.length : α) := by
    rw [hlen]
  have htrain : Stage2Trainer_train_epoch batches = some
      { generator_loss :=
          (batches.map fun b => b.generator_loss).sum / (batches.length : α)
        discriminator_loss :=
          (batches.map fun b => b.discriminator_loss).sum / (batches.length : α)
        kl := (batches.map fun b => b.kl).sum / (batches.length : α)
        discriminator_real_loss :=
          (batches.map fun b => b.disc_real_loss).sum / (batches.length : α)
        discriminator_wrong_loss :=
          (batches.map fun b => b.disc_wrong_loss).sum / (batches.length : α)
        discriminator_fake_loss :=
          (batches.map fun b => b.disc_fake_loss).sum / (batches.length : α) } := by
    simp only [Stage2Trainer_train_epoch, hsnd, foldl_accumulate_fst, hcast,
      enum_map_field, zero_add]
  exact ⟨htrain, (Stage2Trainer_val_epoch_eq_train batches).trans htrain⟩

/-- Witness for C9: two concrete batches over ℚ average componentwise. -/
theorem Stage2Trainer_epoch_mean_losses_witness :
    Stage2Trainer_train_epoch
        [(⟨2, 4, 6, 8, 10, 12⟩ : BatchLosses ℚ), ⟨4, 6, 8, 10, 12, 14⟩]
      = some ⟨3, 5, 7, 9, 11, 13⟩
    ∧ Stage2Trainer_val_epoch
        [(⟨2, 4, 6, 8, 10, 12⟩ : BatchLosses ℚ), ⟨4, 6, 8, 10, 12, 14⟩]
      = some ⟨3, 5, 7, 9, 11, 13⟩ := by
  have h := Stage2Trainer_epoch_mean_losses
    [(⟨2, 4, 6, 8, 10, 12⟩ : BatchLosses ℚ), ⟨4, 6, 8, 10, 12, 14⟩] (by simp)
  constructor
  · rw [h.1]
    norm_num
  · rw [h.2]
    norm_num

/-- C10: `train_epoch` and `val_epoch` require a non-empty batch iterable:
on an empty loader they fail (the `batch_idx` used as divisor is never
bound, so the return statement cannot produce a loss record), while for
every non-empty loader the last bound `batch_idx` is `length - 1`, making
the divisor `batch_idx + 1` equal to the number of batches iterated, and a
loss record is produced. -/
theorem Stage2Trainer_epoch_requires_nonempty {α : Type} [DivisionRing α] :
    (Stage2Trainer_train_epoch ([] : List (BatchLosses α)) = none
      ∧ Stage2Trainer_val_epoch ([] : List (BatchLosses α)) = none)
    ∧ ∀ batches : List (BatchLosses α), batches ≠ [] →
        ((batches.enum.foldl accumulate_step (⟨0, 0, 0, 0, 0, 0⟩, none)).2
            = some (batches.length - 1)
          ∧ batches.length - 1 + 1 = batches.length)
        ∧ (∃ r, Stage2Trainer_train_epoch batches = some r)
        ∧ ∃ r, Stage2Trainer_val_epoch batches = some r := by
  refine ⟨⟨rfl, rfl⟩, ?_⟩
  intro batches h
  have hsnd : (batches.enum.foldl accumulate_step (⟨0, 0, 0, 0, 0, 0⟩, none)).2
      = some (batches.length - 1) := by
    rw [show batches.enum = List.enumFrom 0 batches from rfl,
      enumFrom_foldl_accumulate_snd batches h 0]
    simp
  have hlen : batches.length - 1 + 1 = batches.length := by
    have := List.length_pos.mpr h
    omega
  have htrain : ∃ r, Stage2Trainer_train_epoch batches = some r := by
    simp only [Stage2Trainer_train_epoch, hsnd]
    exact ⟨_, rfl⟩
  exact ⟨⟨hsnd, hlen⟩, htrain,
    htrain.imp fun r hr => (Stage2Trainer_val_epoch_eq_train batches).trans hr⟩

/-- Witness for C10: an empty ℚ loader yields no record; a singleton loader
yields one. -/
theorem Stage2Trainer_epoch_requires_nonempty_witness :
    (Stage2Trainer_train_epoch ([] : List (BatchLosses ℚ)) = none
      ∧ Stage2Trainer_val_epoch ([] : List (BatchLosses ℚ)) = none)
    ∧ ∃ r, Stage2Trainer_train_epoch [(⟨1, 2, 3, 4, 5, 6⟩ : BatchLosses ℚ)]
        = some r :=
  ⟨(@Stage2Trainer_epoch_requires_nonempty ℚ _).1,
   ((@Stage2Trainer_epoch_requires_nonempty ℚ _).2
      [⟨1, 2, 3, 4, 5, 6⟩] (by simp)).2.1⟩

end Texray
